import Mathlib

/-!
Verification of the trialscribe patient-criteria-to-trial-search pipeline.

The definitions below are a shallow embedding of the frontend source:
the patient-data record (frontend/src and the full SearchParametersPanel),
the panel's edit handlers, changed-flag computation and reset handler, the
App-level state machine, the favorites hook, and the missing-fields form.
The backend query builder and progressive filter controller are not part of
the available sources; those are modelled from the specification and marked
as such in their doc comments.
-/

namespace TrialScribe

/-- Whitespace test used to model the JavaScript string trim operation. -/
def isJsWs (c : Char) : Bool :=
  c == ' ' || c == '\t' || c == '\n' || c == '\r' || c == '\x0b' || c == '\x0c'

/-- Character-list trimming: drop whitespace from the front, then from the back. -/
def trimChars (l : List Char) : List Char :=
  ((l.dropWhile isJsWs).reverse.dropWhile isJsWs).reverse

/-- Model of the JavaScript `trim()` method on strings. -/
def jsTrim (s : String) : String := ⟨trimChars s.data⟩

/-- Model of the JavaScript idiom `s || null` on a string: empty becomes null. -/
def orNullStr (s : String) : Option String :=
  if s = "" then none else some s

/-- The `PatientData` record of the source (frontend types plus the fields the
full search-parameters panel reads: additional conditions, additional
interventions and the custom search term). Absent values are `none`;
`additional_conditions`/`additional_interventions` are optional lists because
the panel defensively defaults them with `|| []`. -/
structure PatientData where
  diagnosis : Option String
  intervention : Option String
  additional_conditions : Option (List String)
  additional_interventions : Option (List String)
  custom_search_term : Option String
  location_city : Option String
  location_state : Option String
  location_country : Option String
  location_zip : Option String
  age : Option Nat
  gender : Option String
  symptoms : List String
  medical_history : List String
  current_medications : List String
  treatment_plan : Option String
  exclusion_criteria : List String
  phase_preference : Option (List String)
  status_preference : Option String
  deriving DecidableEq, Repr

/-- The `ClinicalTrial` record of frontend/src/types.ts. -/
structure ClinicalTrial where
  nct_id : String
  title : String
  official_title : String
  status : String
  phase : List String
  conditions : List String
  summary : String
  eligibility_criteria : String
  locations : List String
  url : String
  deriving DecidableEq, Repr

/-- The untyped `normalize` helper of the panel's `hasChanges` memo,
specialized to nullable strings: null stays null, otherwise trim and map the
empty string to null. -/
def normValStr : Option String → Option String
  | none => none
  | some s => orNullStr (jsTrim s)

/-- The same `normalize` helper specialized to nullable string arrays: null
and the empty array become null, otherwise the sorted elements joined with a
comma. -/
def normValList : Option (List String) → Option String
  | none => none
  | some l =>
    if l = [] then none
    else some (String.intercalate "," (l.insertionSort (fun a b => a ≤ b)))

/-- The `hasChanges` memo of the search-parameters panel: a disjunction of
normalized field-wise comparisons of the edited data (plus the custom search
term) against the original patient data. -/
def hasChanges (edited : PatientData) (customSearchTerm : String)
    (original : PatientData) : Bool :=
  !(normValStr edited.diagnosis == normValStr original.diagnosis) ||
  !(normValList edited.additional_conditions == normValList original.additional_conditions) ||
  !(normValStr edited.intervention == normValStr original.intervention) ||
  !(normValList edited.additional_interventions == normValList original.additional_interventions) ||
  !(normValStr edited.location_city == normValStr original.location_city) ||
  !(normValStr edited.location_state == normValStr original.location_state) ||
  !(normValStr edited.location_country == normValStr original.location_country) ||
  !(normValStr edited.location_zip == normValStr original.location_zip) ||
  !(normValStr edited.status_preference == normValStr original.status_preference) ||
  !(normValList edited.phase_preference == normValList original.phase_preference) ||
  !(normValStr edited.gender == normValStr original.gender) ||
  !(normValStr (orNullStr (jsTrim customSearchTerm)) == normValStr original.custom_search_term)

/-- Seeding of the panel's edited data from an incoming patient record: the
record with the two additional-term arrays defaulted to empty. -/
def seedData (p : PatientData) : PatientData :=
  { p with
    additional_conditions := some (p.additional_conditions.getD [])
    additional_interventions := some (p.additional_interventions.getD []) }

/-- Seeding of the panel's custom search term: the incoming custom search
term or the empty string. -/
def customSeed (p : PatientData) : String :=
  p.custom_search_term.getD ""

/-- The local state of the search-parameters panel: the edited copy, the raw
custom search term text, and the ref recording the last seen diagnosis. -/
structure PanelState where
  editedData : PatientData
  customSearchTerm : String
  prevDiagnosis : Option String
  deriving DecidableEq, Repr

/-- Panel state right after mounting with patient data p: seeded edited copy,
seeded custom term, and the diagnosis recorded in the ref. -/
def startPanel (p : PatientData) : PanelState :=
  ⟨seedData p, customSeed p, p.diagnosis⟩

/-- One field-level edit as offered by the panel's input handlers. -/
inductive Edit where
  | diagnosis (v : String)
  | intervention (v : String)
  | additionalConditions (v : String)
  | additionalInterventions (v : String)
  | locationCity (v : String)
  | locationState (v : String)
  | locationCountry (v : String)
  | locationZip (v : String)
  | status (v : String)
  | phase (ph : String) (checked : Bool)
  | gender (v : String)
  | custom (v : String)
  deriving DecidableEq, Repr

/-- Comma-separated list parsing used by the additional-conditions and
additional-interventions handlers. -/
def parseCommaList (v : String) : List String :=
  ((v.splitOn ",").map jsTrim).filter (fun c => c ≠ "")

/-- The phase-checkbox handler: add the phase when checked, otherwise remove
it, collapsing the empty selection to null. -/
def phaseUpdate (current : Option (List String)) (ph : String) (checked : Bool) :
    Option (List String) :=
  let cur := current.getD []
  if checked then some (cur ++ [ph])
  else
    let up := cur.filter (fun q => q ≠ ph)
    if up = [] then none else some up

/-- The panel's edit handlers, one state update per handler of the source. -/
def applyEdit (e : Edit) (s : PanelState) : PanelState :=
  match e with
  | .diagnosis v => { s with editedData := { s.editedData with diagnosis := orNullStr (jsTrim v) } }
  | .intervention v => { s with editedData := { s.editedData with intervention := orNullStr (jsTrim v) } }
  | .additionalConditions v =>
      { s with editedData := { s.editedData with additional_conditions := some (parseCommaList v) } }
  | .additionalInterventions v =>
      { s with editedData := { s.editedData with additional_interventions := some (parseCommaList v) } }
  | .locationCity v => { s with editedData := { s.editedData with location_city := orNullStr (jsTrim v) } }
  | .locationState v => { s with editedData := { s.editedData with location_state := orNullStr (jsTrim v) } }
  | .locationCountry v => { s with editedData := { s.editedData with location_country := orNullStr (jsTrim v) } }
  | .locationZip v => { s with editedData := { s.editedData with location_zip := orNullStr (jsTrim v) } }
  | .status v => { s with editedData := { s.editedData with status_preference := orNullStr v } }
  | .phase ph checked =>
      { s with editedData :=
          { s.editedData with phase_preference := phaseUpdate s.editedData.phase_preference ph checked } }
  | .gender v => { s with editedData := { s.editedData with gender := orNullStr v } }
  | .custom v => { s with customSearchTerm := v }

/-- The panel effect that runs when the patient-data prop changes: when the
recorded previous diagnosis is null or differs from the incoming one, reseed
the edited copy and custom term and record the incoming diagnosis; otherwise
keep the state. -/
def panelEffect (incoming : PatientData) (s : PanelState) : PanelState :=
  if s.prevDiagnosis.isNone || s.prevDiagnosis ≠ incoming.diagnosis then
    ⟨seedData incoming, customSeed incoming, incoming.diagnosis⟩
  else s

/-- The panel's submit handler: the edited data with the trimmed-or-null
custom search term attached; this is the profile passed to the refine
callback. -/
def submittedProfile (s : PanelState) : PatientData :=
  { s.editedData with custom_search_term := orNullStr (jsTrim s.customSearchTerm) }

/-- The panel's reset handler: restore the edited copy and custom term from
the original patient data (the ref is untouched) and hand the original data
to the refine callback. -/
def handleReset (original : PatientData) (s : PanelState) : PanelState × PatientData :=
  (⟨seedData original, customSeed original, s.prevDiagnosis⟩, original)

/-- The top-level App component state: the committed working profile shown to
the panel, the baseline stored for reset, the displayed trials and the error
banner. -/
structure AppState where
  patientData : Option PatientData
  originalPatientData : Option PatientData
  trials : List ClinicalTrial
  error : Option String
  deriving DecidableEq, Repr

/-- One whole session: the App state plus the panel's local state. -/
structure SessionState where
  app : AppState
  panel : PanelState
  deriving DecidableEq, Repr

/-- The user-visible events of one session: outcome of a transcript
submission, a panel edit, outcome of a refine request (carrying the profile
the request was made with), and a reset click. -/
inductive SessionEvent where
  | extractOk (p : PatientData) (ts : List ClinicalTrial)
  | extractErr (msg : String)
  | panelEdit (e : Edit)
  | refineOk (prof : PatientData) (ts : List ClinicalTrial)
  | refineErr (msg : String)
  | resetClick
  deriving DecidableEq, Repr

/-- The session transition function, mirroring the App handlers: a successful
extraction seeds both profile copies and fires the panel effect; a failed one
clears them; panel edits touch only panel state; a successful refine commits
the searched profile and the new trial list; a failed refine only records the
error; reset reseeds the panel from the stored baseline. -/
def stepSession (s : SessionState) : SessionEvent → SessionState
  | .extractOk p ts => ⟨⟨some p, some p, ts, none⟩, panelEffect p s.panel⟩
  | .extractErr m => ⟨⟨none, none, [], some m⟩, s.panel⟩
  | .panelEdit e => ⟨s.app, applyEdit e s.panel⟩
  | .refineOk prof ts =>
      ⟨{ s.app with trials := ts, patientData := some prof, error := none },
        panelEffect prof s.panel⟩
  | .refineErr m => ⟨{ s.app with error := some m }, s.panel⟩
  | .resetClick =>
      match s.app.originalPatientData with
      | some o => ⟨s.app, (handleReset o s.panel).1⟩
      | none => s

/-- Membership test of the favorites map, keyed by registry id. -/
def favContains (m : List (String × ClinicalTrial)) (id : String) : Bool :=
  m.any (fun e => e.1 == id)

/-- The `toggleFavorite` callback of the favorites hook: delete the entry when
the id is present, append it otherwise. -/
def toggleFavorite (m : List (String × ClinicalTrial)) (t : ClinicalTrial) :
    List (String × ClinicalTrial) :=
  if favContains m t.nct_id then m.filter (fun e => e.1 ≠ t.nct_id)
  else m ++ [(t.nct_id, t)]

/-- The missing-fields form's local state: raw text for the text inputs
(seeded with the empty string when the profile value is absent), a parsed
number or null for age, and a nullable string for gender (its select handler
already maps the empty choice to null). -/
structure MissingFieldsData where
  diagnosis : String
  age : Option Nat
  gender : Option String
  location_city : String
  location_state : String
  location_country : String
  location_zip : String
  deriving DecidableEq, Repr

/-- Initial missing-fields form state for a given profile: each text field is
the profile value or the empty string. -/
def initMissingFields (p : PatientData) : MissingFieldsData :=
  ⟨p.diagnosis.getD "", p.age, some (p.gender.getD ""),
    p.location_city.getD "", p.location_state.getD "",
    p.location_country.getD "", p.location_zip.getD ""⟩

/-- The missing-fields form submit handler: spread the form data over the
profile, coercing only age (zero or null to null, mirroring the `|| null` on a
number) and gender to null; the text fields are passed through verbatim. -/
def missingFieldsSubmit (base : PatientData) (fd : MissingFieldsData) : PatientData :=
  { base with
    diagnosis := some fd.diagnosis
    location_city := some fd.location_city
    location_state := some fd.location_state
    location_country := some fd.location_country
    location_zip := some fd.location_zip
    age := if fd.age = some 0 then none else fd.age
    gender := match fd.gender with
      | none => none
      | some g => orNullStr g }

/-- Modelled from the spec: the ProfileNormalizer list normalization (trim
each element, drop empties, deduplicate, sort lexicographically). The backend
implementing it is not among the available sources. -/
def specNormalizeList (l : Option (List String)) : List String :=
  ((((l.getD []).map jsTrim).filter (fun c => c ≠ "")).dedup).insertionSort
    (fun a b => a ≤ b)

/-- Modelled from the spec: the ProfileNormalizer on a whole profile (trim
strings, empty to null, list fields trimmed, deduplicated and sorted). The
backend implementing it is not among the available sources. -/
def specNormalizeProfile (p : PatientData) : PatientData :=
  { p with
    diagnosis := normValStr p.diagnosis
    intervention := normValStr p.intervention
    additional_conditions := some (specNormalizeList p.additional_conditions)
    additional_interventions := some (specNormalizeList p.additional_interventions)
    custom_search_term := normValStr p.custom_search_term
    location_city := normValStr p.location_city
    location_state := normValStr p.location_state
    location_country := normValStr p.location_country
    location_zip := normValStr p.location_zip
    gender := normValStr p.gender
    symptoms := ((p.symptoms.map jsTrim).filter (fun c => c ≠ "")).dedup.insertionSort (fun a b => a ≤ b)
    status_preference := normValStr p.status_preference
    phase_preference := p.phase_preference }

/-- The default registry recruitment-status set. -/
def defaultStatusTerms : List String := ["RECRUITING", "NOT_YET_RECRUITING"]

/-- Modelled from the spec: the materialized query parameters sent to the
registry. The backend query builder is not among the available sources. -/
structure QuerySpec where
  conditionExpr : Option String
  interventionExpr : Option String
  locationTerm : Option String
  statusTerms : List String
  phaseTerms : Option (List String)
  genderTerm : Option String
  pageSize : Nat
  deriving DecidableEq, Repr

/-- Modelled from the spec: the single effective location unit with the total
precedence postal code, then city with optional state and country, then state
with optional country, then country, then none. The backend query builder is
not among the available sources. -/
def locationTerm (p : PatientData) : Option String :=
  match normValStr p.location_zip with
  | some z => some z
  | none =>
    match normValStr p.location_city with
    | some c =>
        some (String.intercalate ", "
          ([c] ++ (normValStr p.location_state).toList ++ (normValStr p.location_country).toList))
    | none =>
      match normValStr p.location_state with
      | some st => some (String.intercalate ", " ([st] ++ (normValStr p.location_country).toList))
      | none => normValStr p.location_country

/-- Join of normalized terms as an OR expression, absent when empty. -/
def orJoin (l : List String) : Option String :=
  if l = [] then none else some (String.intercalate " OR " l)

/-- The normalized condition term list: diagnosis plus additional conditions. -/
def conditionList (p : PatientData) : List String :=
  (normValStr p.diagnosis).toList ++ specNormalizeList p.additional_conditions

/-- The normalized intervention term list: intervention plus additional
interventions. -/
def interventionList (p : PatientData) : List String :=
  (normValStr p.intervention).toList ++ specNormalizeList p.additional_interventions

/-- The registry page-size cap. -/
def PAGE_SIZE : Nat := 50

/-- Modelled from the spec: the QueryBuilder. A non-empty custom search
expression becomes the condition expression verbatim and the structured terms
are dropped; otherwise the structured terms are OR-joined. Location, status
(default applied when null), phase and gender pass through as described in
the spec. The backend query builder is not among the available sources. -/
def buildQuery (p : PatientData) : QuerySpec :=
  match normValStr p.custom_search_term with
  | some e =>
      { conditionExpr := some e
        interventionExpr := none
        locationTerm := locationTerm p
        statusTerms := (normValStr p.status_preference).elim defaultStatusTerms (fun s => s.splitOn ",")
        phaseTerms := p.phase_preference
        genderTerm := normValStr p.gender
        pageSize := PAGE_SIZE }
  | none =>
      { conditionExpr := orJoin (conditionList p)
        interventionExpr := orJoin (interventionList p)
        locationTerm := locationTerm p
        statusTerms := (normValStr p.status_preference).elim defaultStatusTerms (fun s => s.splitOn ",")
        phaseTerms := p.phase_preference
        genderTerm := normValStr p.gender
        pageSize := PAGE_SIZE }

/-- The progressive-filter result cap. -/
def UPPER_BOUND : Nat := 50

/-- Modelled from the spec: the outcome of a progressive search, with the
number of upstream registry calls made. The backend controller is not among
the available sources. -/
structure SearchOutcome where
  results : List ClinicalTrial
  roundsUsed : Nat
  truncated : Bool
  upstreamCalls : Nat
  deriving DecidableEq, Repr

/-- Modelled from the spec: the deterministic narrowing step, which only adds
filters that were absent (location from the profile when the query had none)
and narrows the status set to recruiting-only solely when the caller did not
specify a status and the default set was in use. The backend controller is
not among the available sources. -/
def narrowQuery (p : PatientData) (q : QuerySpec) : QuerySpec :=
  { q with
    locationTerm := match q.locationTerm with
      | some l => some l
      | none => locationTerm p
    statusTerms :=
      if normValStr p.status_preference = none ∧ q.statusTerms = defaultStatusTerms
      then ["RECRUITING"] else q.statusTerms }

/-- Modelled from the spec: the ProgressiveFilterController. Round 0 runs the
built query; when the count exceeds the cap the query is narrowed once and
re-issued; when still over the cap the list is truncated to the first cap
entries and a truncation indicator is set. The backend controller is not
among the available sources. -/
def progressiveSearch (registry : QuerySpec → List ClinicalTrial) (p : PatientData) :
    SearchOutcome :=
  let q0 := buildQuery p
  let r0 := registry q0
  if r0.length ≤ UPPER_BOUND then ⟨r0, 1, false, 1⟩
  else
    let q1 := narrowQuery p q0
    let r1 := registry q1
    if r1.length ≤ UPPER_BOUND then ⟨r1, 2, false, 2⟩
    else ⟨r1.take UPPER_BOUND, 3, true, 2⟩

/-- A blank patient profile used as a base for concrete instantiations. -/
def blankProfile : PatientData :=
  ⟨none, none, none, none, none, none, none, none, none, none, none,
    [], [], [], none, [], none, none⟩

/-- The scenario profile of the spec: glioblastoma in San Francisco, CA, with
no country, postal code or status filter. -/
def scenarioProfile : PatientData :=
  { blankProfile with
    diagnosis := some "glioblastoma"
    location_city := some "San Francisco"
    location_state := some "CA" }

/-- A concrete trial record used by witnesses. -/
def sampleTrial : ClinicalTrial :=
  ⟨"NCT01234567", "Sample trial", "A sample trial", "RECRUITING", ["Phase 2"],
    ["glioblastoma"], "summary", "criteria", ["San Francisco"], "https://example.org"⟩

/-- A second concrete trial record with a different registry id. -/
def sampleTrial2 : ClinicalTrial :=
  { sampleTrial with nct_id := "NCT07654321", title := "Other trial" }

theorem dropWhile_idem (p : Char → Bool) (l : List Char) :
    (l.dropWhile p).dropWhile p = l.dropWhile p := by
  induction l with
  | nil => rfl
  | cons a t ih =>
    rw [List.dropWhile_cons]
    split
    · exact ih
    · rw [List.dropWhile_cons]
      simp_all

theorem dropWhile_back_trimmed (w : Char → Bool) (m : List Char)
    (h : m.dropWhile w = m) :
    ((m.reverse.dropWhile w).reverse).dropWhile w = (m.reverse.dropWhile w).reverse := by
  cases m with
  | nil => simp
  | cons a t =>
    have ha : w a = false := by
      cases hwa : w a with
      | false => rfl
      | true =>
        rw [List.dropWhile_cons, if_pos hwa] at h
        have hle := (List.dropWhile_sublist (l := t) w).length_le
        rw [h] at hle
        simp at hle
    rw [List.reverse_cons, List.dropWhile_append]
    by_cases he : (t.reverse.dropWhile w).isEmpty = true
    · rw [if_pos he]
      have h1 : List.dropWhile w [a] = [a] := by
        rw [List.dropWhile_cons, if_neg (by simp [ha])]
      rw [h1]
      simp [List.dropWhile_cons, ha]
    · rw [if_neg he, List.reverse_append]
      simp only [List.reverse_cons, List.reverse_nil, List.nil_append, List.singleton_append]
      rw [List.dropWhile_cons, if_neg (by simp [ha])]

theorem trimChars_idem (l : List Char) : trimChars (trimChars l) = trimChars l := by
  unfold trimChars
  rw [dropWhile_back_trimmed isJsWs (l.dropWhile isJsWs) (dropWhile_idem isJsWs l),
    List.reverse_reverse, dropWhile_idem]

theorem jsTrim_idem (s : String) : jsTrim (jsTrim s) = jsTrim s :=
  congrArg String.mk (trimChars_idem s.data)

theorem normValStr_orNull_jsTrim (s : String) :
    normValStr (orNullStr (jsTrim s)) = orNullStr (jsTrim s) := by
  by_cases h : jsTrim s = ""
  · simp [orNullStr, h, normValStr]
  · simp only [orNullStr, if_neg h, normValStr, jsTrim_idem]

theorem normCustomSeed (p : PatientData) :
    normValStr (orNullStr (jsTrim (customSeed p))) = normValStr p.custom_search_term := by
  cases hc : p.custom_search_term with
  | none => simp [customSeed, hc, jsTrim, trimChars, orNullStr, normValStr]
  | some s =>
    simp only [customSeed, hc, Option.getD_some, normValStr]
    exact normValStr_orNull_jsTrim s

theorem normValList_seed (x : Option (List String)) :
    normValList (some (x.getD [])) = normValList x := by
  cases x with
  | none => simp [normValList]
  | some l => rfl

theorem hasChanges_seed (p : PatientData) :
    hasChanges (seedData p) (customSeed p) p = false := by
  simp [hasChanges, seedData, normValList_seed, normCustomSeed]

/-- Claim C1: for every session started with baseline profile p, the changed
flag is the field-wise normalized comparison of the working copy against the
baseline: setting diagnosis to a value with the same normalized form leaves
it false; changing any in-scope field (diagnosis, additional conditions,
intervention, additional interventions, the four location fields, status,
phase, gender, custom search expression) to a different normalized value
makes it true; changing only the out-of-scope symptoms field leaves it
false. -/
theorem c1_changed_flag_normalized_comparison (p : PatientData) :
    (∀ v, normValStr v = normValStr p.diagnosis →
      hasChanges { seedData p with diagnosis := v } (customSeed p) p = false) ∧
    (∀ v, normValStr v ≠ normValStr p.diagnosis →
      hasChanges { seedData p with diagnosis := v } (customSeed p) p = true) ∧
    (∀ v, normValList v ≠ normValList p.additional_conditions →
      hasChanges { seedData p with additional_conditions := v } (customSeed p) p = true) ∧
    (∀ v, normValStr v ≠ normValStr p.intervention →
      hasChanges { seedData p with intervention := v } (customSeed p) p = true) ∧
    (∀ v, normValList v ≠ normValList p.additional_interventions →
      hasChanges { seedData p with additional_interventions := v } (customSeed p) p = true) ∧
    (∀ v, normValStr v ≠ normValStr p.location_city →
      hasChanges { seedData p with location_city := v } (customSeed p) p = true) ∧
    (∀ v, normValStr v ≠ normValStr p.location_state →
      hasChanges { seedData p with location_state := v } (customSeed p) p = true) ∧
    (∀ v, normValStr v ≠ normValStr p.location_country →
      hasChanges { seedData p with location_country := v } (customSeed p) p = true) ∧
    (∀ v, normValStr v ≠ normValStr p.location_zip →
      hasChanges { seedData p with location_zip := v } (customSeed p) p = true) ∧
    (∀ v, normValStr v ≠ normValStr p.status_preference →
      hasChanges { seedData p with status_preference := v } (customSeed p) p = true) ∧
    (∀ v, normValList v ≠ normValList p.phase_preference →
      hasChanges { seedData p with phase_preference := v } (customSeed p) p = true) ∧
    (∀ v, normValStr v ≠ normValStr p.gender →
      hasChanges { seedData p with gender := v } (customSeed p) p = true) ∧
    (∀ s, normValStr (orNullStr (jsTrim s)) ≠ normValStr p.custom_search_term →
      hasChanges (seedData p) s p = true) ∧
    (∀ ss, hasChanges { seedData p with symptoms := ss } (customSeed p) p = false) := by
  refine ⟨?_, ?_, ?_, ?_, ?_, ?_, ?_, ?_, ?_, ?_, ?_, ?_, ?_, ?_⟩ <;>
    intros <;>
    simp_all [hasChanges, seedData, normValList_seed, normCustomSeed]

/-- Witness for claim C1 at a concrete profile: a re-normalizing diagnosis
edit leaves the flag false, an intervention change sets it, and a symptoms
change does not. -/
theorem c1_changed_flag_witness :
    hasChanges { seedData scenarioProfile with diagnosis := some " glioblastoma  " }
      (customSeed scenarioProfile) scenarioProfile = false ∧
    hasChanges { seedData scenarioProfile with intervention := some "temozolomide" }
      (customSeed scenarioProfile) scenarioProfile = true ∧
    hasChanges { seedData scenarioProfile with symptoms := ["headache"] }
      (customSeed scenarioProfile) scenarioProfile = false := by
  obtain ⟨h1, h2, h3, h4, h5, h6, h7, h8, h9, h10, h11, h12, h13, h14⟩ :=
    c1_changed_flag_normalized_comparison scenarioProfile
  exact ⟨h1 _ (by decide), h4 _ (by decide), h14 _⟩

/-- Counterexample to claim C2 as stated: for the baseline profile whose
diagnosis carries surrounding whitespace, the working copy restored by reset
equals the stored baseline verbatim and differs from the normalized profile,
so working and baseline do not equal the normalization of p. -/
theorem c2_reset_counterexample :
    (handleReset { blankProfile with diagnosis := some " glioblastoma " }
        (applyEdit (.intervention "x")
          (startPanel { blankProfile with diagnosis := some " glioblastoma " }))).1.editedData ≠
      specNormalizeProfile { blankProfile with diagnosis := some " glioblastoma " } := by
  decide

/-- Claim C2 (amended): reset restores the working copy to the seeded copy of
the stored baseline (list fields defaulted to empty), restores the seeded
custom term, re-runs the search with the stored baseline itself, and the
restored working copy compares as unchanged against the baseline; the code
applies no ProfileNormalizer normalization, so the restored state equals the
baseline as stored rather than its normalization. -/
theorem c2_reset_restores_baseline (p : PatientData) (s : PanelState) :
    (handleReset p s).1.editedData = seedData p ∧
    (handleReset p s).1.customSearchTerm = customSeed p ∧
    (handleReset p s).2 = p ∧
    hasChanges (handleReset p s).1.editedData (handleReset p s).1.customSearchTerm p = false :=
  ⟨rfl, rfl, rfl, hasChanges_seed p⟩

/-- Claim C3: the baseline profile is set exactly once, on successful
extraction, and no session operation — panel edit, successful or failed
refine, or reset — mutates it; a successful refine (the commit) updates only
the working copy. -/
theorem c3_baseline_set_once (s : SessionState) (p prof : PatientData)
    (ts : List ClinicalTrial) (m : String) (e : Edit) :
    (stepSession s (.panelEdit e)).app.originalPatientData = s.app.originalPatientData ∧
    (stepSession s (.refineOk prof ts)).app.originalPatientData = s.app.originalPatientData ∧
    (stepSession s (.refineErr m)).app.originalPatientData = s.app.originalPatientData ∧
    (stepSession s .resetClick).app.originalPatientData = s.app.originalPatientData ∧
    (stepSession s (.refineOk prof ts)).app.patientData = some prof ∧
    (stepSession s (.extractOk p ts)).app.originalPatientData = some p := by
  refine ⟨rfl, rfl, rfl, ?_, rfl, rfl⟩
  cases h : s.app.originalPatientData <;> simp [stepSession, h]

/-- Claim C7: a failed refine leaves the pipeline state unchanged — the
working profile, the panel state and the displayed trial list keep their
prior values — and the failure is surfaced as an error message; the working
profile is updated to the searched profile only on a successful refine. -/
theorem c7_refine_failure_preserves_state (s : SessionState) (m : String)
    (prof : PatientData) (ts : List ClinicalTrial) :
    (stepSession s (.refineErr m)).app.patientData = s.app.patientData ∧
    (stepSession s (.refineErr m)).app.trials = s.app.trials ∧
    (stepSession s (.refineErr m)).panel = s.panel ∧
    (stepSession s (.refineErr m)).app.error = some m ∧
    (stepSession s (.refineOk prof ts)).app.patientData = some prof :=
  ⟨rfl, rfl, rfl, rfl, rfl⟩

theorem favContains_filter_self (m : List (String × ClinicalTrial)) (k : String) :
    favContains (m.filter fun e => e.1 ≠ k) k = false := by
  rw [favContains, List.any_filter, List.any_eq_false]
  intro x _
  by_cases h : x.1 = k <;> simp [h]

theorem favContains_filter_other (m : List (String × ClinicalTrial)) (k id : String)
    (hid : id ≠ k) :
    favContains (m.filter fun e => e.1 ≠ k) id = favContains m id := by
  rw [favContains, List.any_filter, favContains]
  induction m with
  | nil => rfl
  | cons a t ih =>
    rw [List.any_cons, List.any_cons, ih]
    have hpt : (decide (a.1 ≠ k) && (a.1 == id)) = (a.1 == id) := by
      by_cases hai : a.1 = id
      · have hk : a.1 ≠ k := by rw [hai]; exact hid
        simp [hk]
      · simp [hai]
    rw [hpt]

/-- Claim C8: toggling a trial twice restores membership of its registry id,
a single toggle flips exactly that membership, and membership of every other
id is unchanged. -/
theorem c8_favorites_toggle (m : List (String × ClinicalTrial)) (t : ClinicalTrial) :
    favContains (toggleFavorite (toggleFavorite m t) t) t.nct_id = favContains m t.nct_id ∧
    favContains (toggleFavorite m t) t.nct_id = !favContains m t.nct_id ∧
    ∀ id, id ≠ t.nct_id → favContains (toggleFavorite m t) id = favContains m id := by
  by_cases h : favContains m t.nct_id = true
  · have hdel : toggleFavorite m t = m.filter fun e => e.1 ≠ t.nct_id := by
      rw [toggleFavorite, if_pos h]
    have hc : favContains (toggleFavorite m t) t.nct_id = false := by
      rw [hdel]; exact favContains_filter_self m t.nct_id
    refine ⟨?_, by rw [hc, h]; rfl, ?_⟩
    · rw [toggleFavorite, if_neg (by rw [hc]; exact Bool.false_ne_true)]
      rw [favContains, List.any_append, favContains] at *
      simp [h, hc]
    · intro id hid
      rw [hdel]
      exact favContains_filter_other m t.nct_id id hid
  · have hb : favContains m t.nct_id = false := by
      cases hx : favContains m t.nct_id
      · rfl
      · exact absurd hx h
    have hadd : toggleFavorite m t = m ++ [(t.nct_id, t)] := by
      rw [toggleFavorite, if_neg h]
    have hc : favContains (toggleFavorite m t) t.nct_id = true := by
      rw [hadd, favContains, List.any_append]
      simp [favContains] at hb ⊢
    refine ⟨?_, by rw [hc, hb]; rfl, ?_⟩
    · rw [hadd] at hc ⊢
      rw [toggleFavorite, if_pos hc, favContains_filter_self, hb]
    · intro id hid
      rw [hadd, favContains, List.any_append, favContains]
      have : (t.nct_id == id) = false := by
        simp
        exact fun hk => hid hk.symm
      simp [this]

/-- Witness for claim C8 at concrete inputs: double toggle on the empty map
restores membership, and toggling one trial leaves another id's membership
unchanged. -/
theorem c8_favorites_toggle_witness :
    favContains (toggleFavorite (toggleFavorite [] sampleTrial) sampleTrial) sampleTrial.nct_id =
      favContains [] sampleTrial.nct_id ∧
    favContains (toggleFavorite [(sampleTrial2.nct_id, sampleTrial2)] sampleTrial)
        sampleTrial2.nct_id =
      favContains [(sampleTrial2.nct_id, sampleTrial2)] sampleTrial2.nct_id :=
  ⟨(c8_favorites_toggle [] sampleTrial).1,
    (c8_favorites_toggle [(sampleTrial2.nct_id, sampleTrial2)] sampleTrial).2.2
      sampleTrial2.nct_id (by decide)⟩

/-- Claim C4: the built query's location term uses exactly one location
granularity with total precedence postal code first: whenever the normalized
postal code is present the term equals it regardless of the other location
fields, and the spec scenario (glioblastoma, San Francisco, CA, no country,
no postal code, no status filter) yields location term "San Francisco, CA"
with the default recruiting status set. -/
theorem c4_location_precedence :
    (∀ (p : PatientData) z c st co, normValStr p.location_zip = some z →
      (buildQuery { p with location_city := c, location_state := st, location_country := co }).locationTerm = some z) ∧
    (buildQuery scenarioProfile).locationTerm = some "San Francisco, CA" ∧
    (buildQuery scenarioProfile).statusTerms = ["RECRUITING", "NOT_YET_RECRUITING"] := by
  refine ⟨?_, by decide, by decide⟩
  intro p z c st co h
  have hz : normValStr ({ p with location_city := c, location_state := st, location_country := co } : PatientData).location_zip = some z := h
  cases hcu : normValStr ({ p with location_city := c, location_state := st, location_country := co } : PatientData).custom_search_term <;>
    simp [buildQuery, hcu, locationTerm, hz]

/-- Witness for claim C4 at a concrete profile: with a postal code set, the
location term is exactly the postal code even with city and state present. -/
theorem c4_location_precedence_witness :
    (buildQuery { blankProfile with location_zip := some "94102", location_city := some "San Francisco", location_state := some "CA", location_country := none }).locationTerm = some "94102" :=
  c4_location_precedence.1 { blankProfile with location_zip := some "94102" }
    "94102" (some "San Francisco") (some "CA") none (by decide)

/-- Claim C5: a non-empty (after trimming) custom search expression becomes
the built query's condition expression verbatim, the intervention expression
is dropped, and the structured diagnosis, intervention and additional-term
fields contribute nothing (the whole query is unchanged under varying them);
the panel submit keeps the structured fields stored unchanged, a blank
custom expression is carried as null, and with a null custom expression the
structured OR-joined terms are used instead. -/
theorem c5_custom_override :
    (∀ (p : PatientData) e, normValStr p.custom_search_term = some e →
      (buildQuery p).conditionExpr = some e ∧ (buildQuery p).interventionExpr = none) ∧
    (∀ (p : PatientData) e d i ac ai, normValStr p.custom_search_term = some e →
      buildQuery { p with diagnosis := d, intervention := i, additional_conditions := ac, additional_interventions := ai } = buildQuery p) ∧
    (∀ s : PanelState, (submittedProfile s).diagnosis = s.editedData.diagnosis ∧
      (submittedProfile s).intervention = s.editedData.intervention ∧
      (submittedProfile s).additional_conditions = s.editedData.additional_conditions ∧
      (submittedProfile s).additional_interventions = s.editedData.additional_interventions) ∧
    (∀ s : PanelState, jsTrim s.customSearchTerm = "" →
      (submittedProfile s).custom_search_term = none) ∧
    (∀ p : PatientData, normValStr p.custom_search_term = none →
      (buildQuery p).conditionExpr = orJoin (conditionList p) ∧
      (buildQuery p).interventionExpr = orJoin (interventionList p)) := by
  refine ⟨?_, ?_, fun s => ⟨rfl, rfl, rfl, rfl⟩, ?_, ?_⟩
  · intro p e h
    simp [buildQuery, h]
  · intro p e d i ac ai h
    have h' : normValStr ({ p with diagnosis := d, intervention := i, additional_conditions := ac, additional_interventions := ai } : PatientData).custom_search_term = some e := h
    simp only [buildQuery, h, h']
    rfl
  · intro s h
    simp [submittedProfile, orNullStr, h]
  · intro p h
    simp [buildQuery, h]

/-- Witness for claim C5 at a concrete profile: the custom expression
overrides populated structured fields, and a blank custom term submits as
null. -/
theorem c5_custom_override_witness :
    (buildQuery { scenarioProfile with custom_search_term := some "(biomarker AND targeted) OR precision" }).conditionExpr =
        some "(biomarker AND targeted) OR precision" ∧
    buildQuery { scenarioProfile with custom_search_term := some "(biomarker AND targeted) OR precision", diagnosis := some "lung cancer", intervention := some "erlotinib", additional_conditions := some ["metastatic"], additional_interventions := none } =
      buildQuery { scenarioProfile with custom_search_term := some "(biomarker AND targeted) OR precision" } ∧
    (submittedProfile (startPanel scenarioProfile)).custom_search_term = none :=
  ⟨(c5_custom_override.1
      { scenarioProfile with custom_search_term := some "(biomarker AND targeted) OR precision" }
      "(biomarker AND targeted) OR precision" (by decide)).1,
    c5_custom_override.2.1
      { scenarioProfile with custom_search_term := some "(biomarker AND targeted) OR precision" }
      "(biomarker AND targeted) OR precision"
      (some "lung cancer") (some "erlotinib") (some ["metastatic"]) none (by decide),
    c5_custom_override.2.2.2.1 (startPanel scenarioProfile) (by decide)⟩

/-- Claim C6: for every registry behaviour the progressive search terminates
with at most UPPER_BOUND results, uses at most three upstream calls and
rounds, reports truncation (with exactly UPPER_BOUND results) against a
registry that always returns more than UPPER_BOUND records, and narrowing
never removes a caller-specified location or status filter. -/
theorem c6_progressive_filter_bounds (registry : QuerySpec → List ClinicalTrial)
    (p : PatientData) :
    (progressiveSearch registry p).results.length ≤ UPPER_BOUND ∧
    (progressiveSearch registry p).upstreamCalls ≤ 3 ∧
    (progressiveSearch registry p).roundsUsed ≤ 3 ∧
    ((∀ q, UPPER_BOUND < (registry q).length) →
      (progressiveSearch registry p).truncated = true ∧
      (progressiveSearch registry p).results.length = UPPER_BOUND) ∧
    (∀ (q : QuerySpec) l, q.locationTerm = some l →
      (narrowQuery p q).locationTerm = some l) ∧
    (∀ (q : QuerySpec) st, normValStr p.status_preference = some st →
      (narrowQuery p q).statusTerms = q.statusTerms) := by
  refine ⟨?_, ?_, ?_, ?_, ?_, ?_⟩
  · simp only [progressiveSearch]
    split
    · next h => exact h
    · split
      · next h => exact h
      · simp only [List.length_take]
        omega
  · simp only [progressiveSearch]
    split
    · show (1 : Nat) ≤ 3
      omega
    · split
      · show (2 : Nat) ≤ 3
        omega
      · show (2 : Nat) ≤ 3
        omega
  · simp only [progressiveSearch]
    split
    · show (1 : Nat) ≤ 3
      omega
    · split
      · show (2 : Nat) ≤ 3
        omega
      · show (3 : Nat) ≤ 3
        omega
  · intro h
    have h0 := h (buildQuery p)
    have h1 := h (narrowQuery p (buildQuery p))
    simp only [progressiveSearch]
    rw [if_neg (by omega), if_neg (by omega)]
    refine ⟨rfl, ?_⟩
    simp only [List.length_take]
    omega
  · intro q l h
    simp [narrowQuery, h]
  · intro q st h
    simp [narrowQuery, h]

/-- Witness for claim C6 at concrete inputs: a registry constantly returning
51 records forces truncation at 50 results, and narrowing keeps a
caller-specified location and status. -/
theorem c6_progressive_filter_witness :
    (progressiveSearch (fun _ => List.replicate 51 sampleTrial) scenarioProfile).truncated = true ∧
    (progressiveSearch (fun _ => List.replicate 51 sampleTrial) scenarioProfile).results.length =
      UPPER_BOUND ∧
    (narrowQuery scenarioProfile
      { (buildQuery scenarioProfile) with locationTerm := some "Boston" }).locationTerm =
        some "Boston" ∧
    (narrowQuery { blankProfile with status_preference := some "RECRUITING" }
      { (buildQuery blankProfile) with statusTerms := ["RECRUITING"] }).statusTerms =
        ["RECRUITING"] := by
  obtain ⟨_, _, _, d, e, _⟩ :=
    c6_progressive_filter_bounds (fun _ => List.replicate 51 sampleTrial) scenarioProfile
  obtain ⟨_, _, _, _, _, f⟩ :=
    c6_progressive_filter_bounds (fun _ => List.replicate 51 sampleTrial)
      { blankProfile with status_preference := some "RECRUITING" }
  have hbig : ∀ q : QuerySpec, UPPER_BOUND < (List.replicate 51 sampleTrial).length := by
    intro q
    simp [UPPER_BOUND]
  exact ⟨(d hbig).1, (d hbig).2, e _ "Boston" rfl, f _ "RECRUITING" (by decide)⟩

/-- Counterexample to claim C9 as stated: the missing-fields form submits its
blank text fields verbatim, so a blank location city reaches the pipeline as
an empty string, not null, and the blank diagnosis likewise. -/
theorem c9_null_representation_counterexample :
    (missingFieldsSubmit blankProfile (initMissingFields blankProfile)).location_city = some "" ∧
    (missingFieldsSubmit blankProfile (initMissingFields blankProfile)).diagnosis ≠ none := by
  decide

/-- Claim C9 (amended): profiles submitted from the search-parameters panel
represent blanked fields as explicit nulls — the text handlers store
trim-or-null, the status and gender selects store empty-as-null, deselecting
every phase stores null, and a blank custom expression is carried as null —
and the missing-fields form nulls age and gender; but the missing-fields
form submits its blank text fields (diagnosis and the location fields) as
empty strings rather than null. -/
theorem c9_null_representation (s : PanelState) (v ph : String)
    (fd : MissingFieldsData) (base : PatientData) :
    (jsTrim v = "" → (applyEdit (.diagnosis v) s).editedData.diagnosis = none) ∧
    (jsTrim v = "" → (applyEdit (.intervention v) s).editedData.intervention = none) ∧
    (jsTrim v = "" → (applyEdit (.locationCity v) s).editedData.location_city = none) ∧
    (jsTrim v = "" → (applyEdit (.locationState v) s).editedData.location_state = none) ∧
    (jsTrim v = "" → (applyEdit (.locationCountry v) s).editedData.location_country = none) ∧
    (jsTrim v = "" → (applyEdit (.locationZip v) s).editedData.location_zip = none) ∧
    (applyEdit (.status "") s).editedData.status_preference = none ∧
    (applyEdit (.gender "") s).editedData.gender = none ∧
    ((s.editedData.phase_preference.getD []).filter (fun q => q ≠ ph) = [] →
      (applyEdit (.phase ph false) s).editedData.phase_preference = none) ∧
    (jsTrim s.customSearchTerm = "" → (submittedProfile s).custom_search_term = none) ∧
    (fd.gender = some "" → (missingFieldsSubmit base fd).gender = none) ∧
    (missingFieldsSubmit base fd).diagnosis = some fd.diagnosis ∧
    (missingFieldsSubmit base fd).location_city = some fd.location_city := by
  refine ⟨fun h => ?_, fun h => ?_, fun h => ?_, fun h => ?_, fun h => ?_, fun h => ?_,
    ?_, ?_, fun h => ?_, fun h => ?_, fun h => ?_, rfl, rfl⟩
  · simp [applyEdit, orNullStr, h]
  · simp [applyEdit, orNullStr, h]
  · simp [applyEdit, orNullStr, h]
  · simp [applyEdit, orNullStr, h]
  · simp [applyEdit, orNullStr, h]
  · simp [applyEdit, orNullStr, h]
  · simp [applyEdit, orNullStr]
  · simp [applyEdit, orNullStr]
  · simp only [applyEdit]
    simp [phaseUpdate]
    intro x hx
    by_contra hne
    have hmem : x ∈ (s.editedData.phase_preference.getD []).filter (fun q => q ≠ ph) :=
      List.mem_filter.mpr ⟨hx, by simp [hne]⟩
    rw [h] at hmem
    simp at hmem
  · simp [submittedProfile, orNullStr, h]
  · simp [missingFieldsSubmit, orNullStr, h]

/-- Witness for claim C9 at concrete inputs: blanking each panel field yields
null, unchecking the only phase yields null, and the missing-fields form
coerces a blank gender to null. -/
theorem c9_null_representation_witness :
    (applyEdit (.diagnosis "   ") (startPanel scenarioProfile)).editedData.diagnosis = none ∧
    (applyEdit (.phase "Phase 2" false)
      (startPanel { scenarioProfile with phase_preference := some ["Phase 2"] })).editedData.phase_preference = none ∧
    (missingFieldsSubmit blankProfile (initMissingFields blankProfile)).gender = none := by
  obtain ⟨h1, _, _, _, _, _, _, _, h9, _, h11, _, _⟩ :=
    c9_null_representation (startPanel scenarioProfile) "   " "Phase 2"
      (initMissingFields blankProfile) blankProfile
  obtain ⟨_, _, _, _, _, _, _, _, h9b, _, _, _, _⟩ :=
    c9_null_representation (startPanel { scenarioProfile with phase_preference := some ["Phase 2"] })
      "   " "Phase 2" (initMissingFields blankProfile) blankProfile
  exact ⟨h1 (by decide), h9b (by decide), h11 (by decide)⟩

/-- Counterexample to claim C10 as stated: with a previously recorded null
diagnosis and a new baseline whose diagnosis is the same null value, the
panel effect still reseeds, discarding the prior edits instead of keeping
them. -/
theorem c10_reseed_counterexample :
    blankProfile.diagnosis =
      (⟨{ blankProfile with intervention := some "temozolomide" }, "my expr", none⟩ :
        PanelState).prevDiagnosis ∧
    panelEffect blankProfile
        ⟨{ blankProfile with intervention := some "temozolomide" }, "my expr", none⟩ ≠
      ⟨{ blankProfile with intervention := some "temozolomide" }, "my expr", none⟩ := by
  decide

/-- Claim C10 (amended): the panel keeps its edited working copy and custom
expression exactly when the recorded previous diagnosis is non-null and
equals the new baseline's diagnosis; when the record is null or differs, the
panel reseeds the working copy and custom expression from the new baseline
and records its diagnosis. -/
theorem c10_reseed_on_diagnosis_change (p : PatientData) (s : PanelState) :
    (∀ d, s.prevDiagnosis = some d → p.diagnosis = some d → panelEffect p s = s) ∧
    (s.prevDiagnosis = none ∨ s.prevDiagnosis ≠ p.diagnosis →
      panelEffect p s = ⟨seedData p, customSeed p, p.diagnosis⟩) := by
  constructor
  · intro d hd hp
    rw [panelEffect, if_neg]
    simp [hd, hp]
  · intro h
    rw [panelEffect, if_pos]
    rcases h with h | h
    · simp [h]
    · simp [h]

/-- Witness for claim C10 at concrete inputs: an unchanged non-null
diagnosis keeps the edited state, and a differing diagnosis reseeds. -/
theorem c10_reseed_witness :
    panelEffect scenarioProfile
        ⟨{ (seedData scenarioProfile) with intervention := some "temozolomide" }, "expr",
          some "glioblastoma"⟩ =
      ⟨{ (seedData scenarioProfile) with intervention := some "temozolomide" }, "expr",
        some "glioblastoma"⟩ ∧
    panelEffect { scenarioProfile with diagnosis := some "lung cancer" }
        (startPanel scenarioProfile) =
      ⟨seedData { scenarioProfile with diagnosis := some "lung cancer" },
        customSeed { scenarioProfile with diagnosis := some "lung cancer" },
        some "lung cancer"⟩ :=
  ⟨(c10_reseed_on_diagnosis_change scenarioProfile
      ⟨{ (seedData scenarioProfile) with intervention := some "temozolomide" }, "expr",
        some "glioblastoma"⟩).1 "glioblastoma" rfl rfl,
    (c10_reseed_on_diagnosis_change { scenarioProfile with diagnosis := some "lung cancer" }
      (startPanel scenarioProfile)).2 (Or.inr (by decide))⟩

end TrialScribe
